import Mathlib

/-!
Shallow embedding of the AudioCall component (src/src/components/ChatRequests.tsx,
second document in the file, lines 302-620): a two-party audio call negotiated
over a Supabase broadcast channel ("audio-call-" ++ chatId) carrying signaling
messages of types "offer", "answer", "ice-candidate" and "end-call", each with
fields from/to/message.

The component's mutable state consists of React state variables
(localStream, peerConnection, isMuted, callStatus, callDuration), the ref
channelRef, and the mutable RTCPeerConnection / MediaStream objects captured by
the event-handler closures.  We model all of them in one record `CallState`,
plus an observation log: `sends` records every channel.send attempt in order,
and `errorsLogged` counts every caught-and-logged error (console.error in a
catch block, or the "Channel not initialized" early return).

Session description blobs and connectivity candidates are opaque; we model
them as natural numbers.
-/

namespace AudioCall

/-- One audio track of the local MediaStream (the call is audio-only, so
getAudioTracks() returns every track). `enabled` is the mute toggle target,
`stopped` records that track.stop() was called. -/
structure Track where
  enabled : Bool
  stopped : Bool
deriving DecidableEq, Repr

/-- RTCIceConnectionState values the code inspects. -/
inductive IceConnState
  | newSt
  | checking
  | connected
  | completed
  | failed
  | disconnected
  | closedSt
deriving DecidableEq, Repr

/-- The RTCPeerConnection object captured by the signaling handler closure.
`localDesc` / `remoteDesc` are the applied session descriptions,
`remoteCandidates` the candidates successfully passed to addIceCandidate
(in arrival order), `closed` records that close() was called. -/
structure PC where
  localDesc : Option Nat
  remoteDesc : Option Nat
  remoteCandidates : List Nat
  closed : Bool
deriving DecidableEq, Repr

/-- A signaling message: the `message` field of the broadcast payload. -/
inductive Msg
  | offer (d : Nat)
  | answer (d : Nat)
  | candidate (c : Nat)
  | endCall
deriving DecidableEq, Repr

/-- The callStatus React state: "connecting" | "connected" | "ended". -/
inductive CallStatus
  | connecting
  | connected
  | ended
deriving DecidableEq, Repr

/-- The broadcast payload: { from, to, message }. -/
structure Payload where
  fromId : String
  toId : String
  msg : Msg
deriving DecidableEq, Repr

/-- The whole mutable state of one AudioCall component instance, after
call initialization has produced the stream and the connection.
`tracks` is the MediaStream object's track list (the object outlives the
localStream state variable), `localStreamSet` models the localStream React
state variable being non-null, `pcSet` models the peerConnection React
state variable being non-null, `channel` models channelRef.current being
non-null. -/
structure CallState where
  currentUserId : String
  otherUserId : String
  isInitiator : Bool
  isMuted : Bool
  callStatus : CallStatus
  callDuration : Nat
  tracks : List Track
  localStreamSet : Bool
  pc : PC
  pcSet : Bool
  channel : Bool
  sends : List Msg
  errorsLogged : Nat
deriving DecidableEq, Repr

/-- createAnswer: the answer description produced for a given applied offer.
Descriptions are opaque blobs; the claims depend only on message kinds. -/
def createAnswer (d : Nat) : Nat := d

/-- createOffer: the offer description produced by the initiator. -/
def createOffer : Nat := 0

/-- Whether a message is an Offer. -/
def isOffer : Msg → Bool
  | .offer _ => true
  | _ => false

/-- localStream.getTracks().forEach(track.stop()). -/
def stopTracks (ts : List Track) : List Track :=
  ts.map fun t => { t with stopped := true }

/-- sendSignalingMessage (source lines 459-479): if channelRef.current is
null, log an error and return; otherwise attempt channel.send (recorded in
`sends`); a transport failure (`ok = false`) is caught and logged. -/
def sendSignalingMessage (s : CallState) (m : Msg) (ok : Bool) : CallState :=
  if s.channel then
    { s with sends := s.sends ++ [m],
             errorsLogged := if ok then s.errorsLogged else s.errorsLogged + 1 }
  else
    { s with errorsLogged := s.errorsLogged + 1 }

/-- cleanup (source lines 543-561): stop all capture tracks if localStream is
set, close the connection if peerConnection is set, remove the channel if
attached, then null out localStream / peerConnection, set callStatus to
"ended" and callDuration to 0. -/
def cleanup (s : CallState) : CallState :=
  let s1 := if s.localStreamSet then { s with tracks := stopTracks s.tracks } else s
  let s2 := if s1.pcSet then { s1 with pc := { s1.pc with closed := true } } else s1
  let s3 := if s2.channel then { s2 with channel := false } else s2
  { s3 with localStreamSet := false, pcSet := false,
            callStatus := .ended, callDuration := 0 }

/-- handleEndCall (source lines 535-541): if the channel is still attached,
send an end-call message, then run cleanup (and close the dialog). -/
def handleEndCall (s : CallState) (ok : Bool) : CallState :=
  cleanup (if s.channel then sendSignalingMessage s .endCall ok else s)

/-- toggleMute (source lines 526-533): if localStream is set, flip the
enabled flag of every audio track and flip isMuted; otherwise do nothing. -/
def toggleMute (s : CallState) : CallState :=
  if s.localStreamSet then
    { s with tracks := s.tracks.map fun t => { t with enabled := !t.enabled },
             isMuted := !s.isMuted }
  else s

/-- The asynchronous events feeding one session, each carrying the outcome
`ok` of any channel.send it performs:
  * `recv`: a broadcast "signaling" event delivered by the subscribed channel
    (the handler installed by subscribeToSignaling, source lines 485-515);
  * `localCandidate`: pc.onicecandidate with a non-null candidate
    (lines 414-422);
  * `iceState`: pc.oniceconnectionstatechange (lines 425-433);
  * `remoteTrack`: pc.ontrack (lines 403-411);
  * `userHangup`: the hang-up button / dialog close (handleEndCall);
  * `userToggleMute`: the mute button;
  * `offerPhase`: the initiator-only block at the end of call initialization
    (lines 439-450) that creates, applies and sends the Offer. -/
inductive Event
  | recv (p : Payload) (ok : Bool)
  | localCandidate (c : Nat) (ok : Bool)
  | iceState (st : IceConnState) (ok : Bool)
  | remoteTrack
  | userHangup (ok : Bool)
  | userToggleMute
  | offerPhase (ok : Bool)
deriving DecidableEq, Repr

/-- One step of the session: process a single event against the current
state, exactly as the source handlers do.  A removed channel delivers no
broadcasts, and a closed RTCPeerConnection fires no callbacks.  Operations
on a closed connection (setRemoteDescription, addIceCandidate,
setLocalDescription) throw; the handler's catch logs the error and the
event has no further effect.  addIceCandidate also throws when no remote
description has been applied yet, so such a candidate is dropped: the
source keeps no pending-candidate buffer. -/
def step (s : CallState) (e : Event) : CallState :=
  match e with
  | .recv p ok =>
    if !s.channel then s
    else if p.toId ≠ s.currentUserId then s
    else
      match p.msg with
      | .offer d =>
        if s.pc.closed then { s with errorsLogged := s.errorsLogged + 1 }
        else
          let s1 := { s with pc := { s.pc with remoteDesc := some d } }
          let s2 := { s1 with pc := { s1.pc with localDesc := some (createAnswer d) } }
          sendSignalingMessage s2 (.answer (createAnswer d)) ok
      | .answer d =>
        if s.pc.closed then { s with errorsLogged := s.errorsLogged + 1 }
        else { s with pc := { s.pc with remoteDesc := some d } }
      | .candidate c =>
        if s.pc.closed || s.pc.remoteDesc.isNone then
          { s with errorsLogged := s.errorsLogged + 1 }
        else { s with pc := { s.pc with remoteCandidates := s.pc.remoteCandidates ++ [c] } }
      | .endCall => handleEndCall s ok
  | .localCandidate c ok =>
    if s.pc.closed then s else sendSignalingMessage s (.candidate c) ok
  | .iceState st ok =>
    if s.pc.closed then s
    else if st = .connected then { s with callStatus := .connected }
    else if st = .failed ∨ st = .disconnected then handleEndCall s ok
    else s
  | .remoteTrack =>
    if s.pc.closed then s else { s with callStatus := .connected }
  | .userHangup ok => handleEndCall s ok
  | .userToggleMute => toggleMute s
  | .offerPhase ok =>
    if s.isInitiator then
      if s.pc.closed then { s with errorsLogged := s.errorsLogged + 1 }
      else
        let s1 := { s with pc := { s.pc with localDesc := some createOffer } }
        sendSignalingMessage s1 (.offer createOffer) ok
    else s

/-- The sequential actions of the call-initialization routine
(initializeCall, source lines 374-457) on its failure-free path:
acquire the microphone, create the connection, attach the local tracks,
start the subscription, await the SUBSCRIBED confirmation that resolves the
subscribe promise (lines 516-523), and — only when this party is the
initiator — wait a fixed 1000 ms settle delay, create and apply the offer,
and send it. -/
inductive Action
  | getUserMedia
  | createPC
  | addTrack
  | subscribeStart
  | subscribedConfirmed
  | delayMs (n : Nat)
  | buildOffer
  | setLocalDesc
  | sendOffer
deriving DecidableEq, Repr

/-- The action trace of one run of the call-initialization routine. -/
def initCallTrace (isInitiator : Bool) : List Action :=
  [.getUserMedia, .createPC, .addTrack, .subscribeStart, .subscribedConfirmed] ++
    (if isInitiator then [.delayMs 1000, .buildOffer, .setLocalDesc, .sendOffer] else [])

/-! Concrete states used to evaluate the model: a freshly initialized
responder session, a freshly initialized initiator session, and a
connected session. -/

/-- A fresh RTCPeerConnection: no descriptions applied, no candidates, open. -/
def pcOpen : PC :=
  { localDesc := none, remoteDesc := none, remoteCandidates := [], closed := false }

/-- Responder session right after call initialization: microphone granted
(one enabled track), connection created, channel subscribed, no remote
description yet. -/
def sResp : CallState :=
  { currentUserId := "u1", otherUserId := "u2", isInitiator := false,
    isMuted := false, callStatus := .connecting, callDuration := 0,
    tracks := [{ enabled := true, stopped := false }],
    localStreamSet := true, pc := pcOpen, pcSet := true, channel := true,
    sends := [], errorsLogged := 0 }

/-- Initiator session right after the subscription is confirmed, just
before the offer block runs. -/
def sInit : CallState := { sResp with isInitiator := true }

/-- A session in the Connected phase (descriptions exchanged, media up). -/
def sConn : CallState :=
  { sResp with callStatus := .connected,
               pc := { pcOpen with localDesc := some 7, remoteDesc := some 7 } }

/-- A session after a completed teardown of the connected call. -/
def sEnded : CallState := handleEndCall sConn true

/-! Helper lemmas about the individual operations. -/

theorem cleanup_sends (s : CallState) : (cleanup s).sends = s.sends := by
  simp only [cleanup]
  repeat' split
  all_goals rfl

theorem cleanup_callStatus (s : CallState) : (cleanup s).callStatus = .ended := by
  simp only [cleanup]

theorem cleanup_isInitiator (s : CallState) : (cleanup s).isInitiator = s.isInitiator := by
  simp only [cleanup]
  repeat' split
  all_goals rfl

theorem sendMsg_isInitiator (s : CallState) (m : Msg) (ok : Bool) :
    (sendSignalingMessage s m ok).isInitiator = s.isInitiator := by
  simp only [sendSignalingMessage]
  split <;> rfl

theorem sendMsg_callStatus (s : CallState) (m : Msg) (ok : Bool) :
    (sendSignalingMessage s m ok).callStatus = s.callStatus := by
  simp only [sendSignalingMessage]
  split <;> rfl

theorem sendMsg_sends (s : CallState) (m : Msg) (ok : Bool) :
    (sendSignalingMessage s m ok).sends = s.sends ∨
      (sendSignalingMessage s m ok).sends = s.sends ++ [m] := by
  simp only [sendSignalingMessage]
  split
  · exact Or.inr rfl
  · exact Or.inl rfl

theorem countP_isOffer_append (l : List Msg) (m : Msg) (h : isOffer m = false) :
    (l ++ [m]).countP isOffer = l.countP isOffer := by
  simp [List.countP_append, List.countP_cons, h]

theorem sendMsg_countP_isOffer (s : CallState) (m : Msg) (ok : Bool) (h : isOffer m = false) :
    (sendSignalingMessage s m ok).sends.countP isOffer = s.sends.countP isOffer := by
  rcases sendMsg_sends s m ok with hs | hs <;> rw [hs]
  exact countP_isOffer_append _ _ h

theorem handleEndCall_callStatus (s : CallState) (ok : Bool) :
    (handleEndCall s ok).callStatus = .ended := by
  unfold handleEndCall
  exact cleanup_callStatus _

theorem handleEndCall_isInitiator (s : CallState) (ok : Bool) :
    (handleEndCall s ok).isInitiator = s.isInitiator := by
  unfold handleEndCall
  rw [cleanup_isInitiator]
  split
  · exact sendMsg_isInitiator _ _ _
  · rfl

theorem handleEndCall_countP_isOffer (s : CallState) (ok : Bool) :
    (handleEndCall s ok).sends.countP isOffer = s.sends.countP isOffer := by
  unfold handleEndCall
  rw [cleanup_sends]
  split
  · exact sendMsg_countP_isOffer _ _ _ rfl
  · rfl

theorem toggleMute_isInitiator (s : CallState) :
    (toggleMute s).isInitiator = s.isInitiator := by
  simp only [toggleMute]
  split <;> rfl

theorem toggleMute_sends (s : CallState) : (toggleMute s).sends = s.sends := by
  simp only [toggleMute]
  split <;> rfl

theorem toggleMute_callStatus (s : CallState) : (toggleMute s).callStatus = s.callStatus := by
  simp only [toggleMute]
  split <;> rfl

/-- Closed form of handleEndCall on a fully live session (channel attached,
stream and connection present): one end-call send attempt, then every
resource released and the status set to ended. -/
theorem handleEndCall_closed_form (s : CallState) (ok : Bool)
    (h1 : s.channel = true) (h2 : s.localStreamSet = true) (h3 : s.pcSet = true) :
    handleEndCall s ok =
      { s with tracks := stopTracks s.tracks,
               pc := { s.pc with closed := true },
               channel := false, localStreamSet := false, pcSet := false,
               callStatus := .ended, callDuration := 0,
               sends := s.sends ++ [Msg.endCall],
               errorsLogged := if ok then s.errorsLogged else s.errorsLogged + 1 } := by
  simp [handleEndCall, sendSignalingMessage, cleanup, h1, h2, h3]

/-! Per-event helper lemmas about `step`. -/

theorem step_isInitiator (s : CallState) (e : Event) :
    (step s e).isInitiator = s.isInitiator := by
  cases e with
  | recv p ok =>
    obtain ⟨pf, pt, pm⟩ := p
    cases pm <;> simp only [step] <;> repeat' split
    all_goals
      first
      | rfl
      | exact sendMsg_isInitiator _ _ _
      | exact handleEndCall_isInitiator _ _
  | localCandidate c ok =>
    simp only [step]
    split
    · rfl
    · exact sendMsg_isInitiator _ _ _
  | iceState st ok =>
    simp only [step]
    repeat' split
    all_goals
      first
      | rfl
      | exact handleEndCall_isInitiator _ _
  | remoteTrack =>
    simp only [step]
    split <;> rfl
  | userHangup ok => exact handleEndCall_isInitiator _ _
  | userToggleMute => exact toggleMute_isInitiator _
  | offerPhase ok =>
    simp only [step]
    repeat' split
    all_goals
      first
      | rfl
      | exact sendMsg_isInitiator _ _ _

theorem step_countP_isOffer (s : CallState) (e : Event) (h : s.isInitiator = false) :
    (step s e).sends.countP isOffer = s.sends.countP isOffer := by
  cases e with
  | recv p ok =>
    obtain ⟨pf, pt, pm⟩ := p
    cases pm <;> simp only [step] <;> repeat' split
    all_goals
      first
      | rfl
      | exact sendMsg_countP_isOffer _ _ _ rfl
      | exact handleEndCall_countP_isOffer _ _
  | localCandidate c ok =>
    simp only [step]
    split
    · rfl
    · exact sendMsg_countP_isOffer _ _ _ rfl
  | iceState st ok =>
    simp only [step]
    repeat' split
    all_goals
      first
      | rfl
      | exact handleEndCall_countP_isOffer _ _
  | remoteTrack =>
    simp only [step]
    split <;> rfl
  | userHangup ok => exact handleEndCall_countP_isOffer _ _
  | userToggleMute =>
    simp only [step]
    rw [toggleMute_sends]
  | offerPhase ok =>
    simp [step, h]

/-! Claim C1. -/

/-- C1 counterexample: there is no pendingRemoteCandidates buffer.  On the
freshly initialized responder session, a Candidate arriving before the
remote description is applied is dropped with a logged error (addIceCandidate
throws before setRemoteDescription), and after the Offer is then received and
the remote description applied, the connection still holds no remote
candidates: the buffer-and-apply-exactly-once behaviour the claim states
does not happen. -/
theorem c1_counterexample :
    step sResp (Event.recv ⟨"u2", "u1", Msg.candidate 42⟩ true) =
      { sResp with errorsLogged := 1 } ∧
    (step (step sResp (Event.recv ⟨"u2", "u1", Msg.candidate 42⟩ true))
        (Event.recv ⟨"u2", "u1", Msg.offer 7⟩ true)).pc.remoteCandidates = [] := by
  constructor
  · rfl
  · rfl

/-- C1 amended: a Candidate received on a live session is applied to the
connection immediately when a remote description has already been applied,
and otherwise it is dropped with a logged error; no field of the session
buffers it. -/
theorem c1_candidate_no_buffer (s : CallState) (f : String) (c : Nat) (ok : Bool)
    (hch : s.channel = true) (hcl : s.pc.closed = false) :
    step s (Event.recv ⟨f, s.currentUserId, Msg.candidate c⟩ ok) =
      { s with
        pc := { s.pc with remoteCandidates :=
          s.pc.remoteCandidates ++ if s.pc.remoteDesc.isSome then [c] else [] },
        errorsLogged := s.errorsLogged + if s.pc.remoteDesc.isSome then 0 else 1 } := by
  cases hrd : s.pc.remoteDesc with
  | none =>
    simp [step, hch, hcl, hrd]
    rw [← hrd, ← hcl]
  | some d =>
    simp [step, hch, hcl, hrd]

/-- C1 amended witness: the drop case at the concrete responder session. -/
theorem c1_candidate_no_buffer_witness :
    sResp.channel = true ∧ sResp.pc.closed = false ∧
    step sResp (Event.recv ⟨"u2", sResp.currentUserId, Msg.candidate 5⟩ true) =
      { sResp with
        pc := { sResp.pc with remoteCandidates :=
          sResp.pc.remoteCandidates ++ if sResp.pc.remoteDesc.isSome then [5] else [] },
        errorsLogged := sResp.errorsLogged + if sResp.pc.remoteDesc.isSome then 0 else 1 } :=
  ⟨rfl, rfl, c1_candidate_no_buffer sResp "u2" 5 true rfl rfl⟩

/-! Claim C2. -/

/-- C2: the role (isInitiator) is never changed by any event, and a session
whose role is Responder never adds an Offer to its send log under any event:
the only send sites reachable in its handlers emit Answer, Candidate or
Hangup messages, and the offer block is guarded by isInitiator. -/
theorem c2_role_fixed_responder_never_offers (s : CallState) (e : Event) :
    (step s e).isInitiator = s.isInitiator ∧
    (s.isInitiator = false →
      (step s e).sends.countP isOffer = s.sends.countP isOffer) :=
  ⟨step_isInitiator s e, fun h => step_countP_isOffer s e h⟩

/-- C2 witness: a responder session handling a received Offer keeps its role
and adds no Offer to its send log. -/
theorem c2_role_fixed_responder_never_offers_witness :
    (step sResp (Event.recv ⟨"u2", "u1", Msg.offer 7⟩ true)).isInitiator =
      sResp.isInitiator ∧
    (step sResp (Event.recv ⟨"u2", "u1", Msg.offer 7⟩ true)).sends.countP isOffer =
      sResp.sends.countP isOffer :=
  ⟨(c2_role_fixed_responder_never_offers sResp (Event.recv ⟨"u2", "u1", Msg.offer 7⟩ true)).1,
   (c2_role_fixed_responder_never_offers sResp (Event.recv ⟨"u2", "u1", Msg.offer 7⟩ true)).2 rfl⟩

/-! Claim C3. -/

/-- C3 counterexample: messages carry no session identifier, so a stale
end-call — sent by a prior, already-ended session on the same topic key but
addressed to the local participant — is processed and causes a state
transition: the connected session ends. -/
theorem c3_counterexample :
    sConn.callStatus = .connected ∧
    (step sConn (Event.recv ⟨"u9", "u1", Msg.endCall⟩ true)).callStatus = .ended ∧
    step sConn (Event.recv ⟨"u9", "u1", Msg.endCall⟩ true) ≠ sConn := by
  refine ⟨rfl, rfl, ?_⟩
  decide

/-- C3 amended: an incoming message whose `to` field differs from the local
participant id causes no state transition and no effect, and processing
never depends on the sender field — the code has no session identifier, so
no stale-session filtering beyond the `to` check exists. -/
theorem c3_recipient_filter (s : CallState) (p : Payload) (f : String) (ok : Bool) :
    (p.toId ≠ s.currentUserId → step s (Event.recv p ok) = s) ∧
    step s (Event.recv ⟨f, p.toId, p.msg⟩ ok) = step s (Event.recv p ok) := by
  constructor
  · intro h
    simp [step, h]
  · rfl

/-- C3 amended witness: a foreign-addressed candidate on the connected
session is a no-op, and the handler ignores the sender field. -/
theorem c3_recipient_filter_witness :
    step sConn (Event.recv ⟨"u2", "u9", Msg.candidate 3⟩ true) = sConn ∧
    step sConn (Event.recv ⟨"zz", "u9", Msg.candidate 3⟩ true) =
      step sConn (Event.recv ⟨"u2", "u9", Msg.candidate 3⟩ true) :=
  ⟨(c3_recipient_filter sConn ⟨"u2", "u9", Msg.candidate 3⟩ "zz" true).1 (by decide),
   (c3_recipient_filter sConn ⟨"u2", "u9", Msg.candidate 3⟩ "zz" true).2⟩

/-! Claim C4. -/

/-- C4: handleEndCall is idempotent.  On a live session (channel attached,
stream and connection present), the first call makes exactly one end-call
send attempt and performs the full release cycle — capture tracks stopped,
connection closed, channel subscription removed — and a second call in
succession is the identity: no further send, no further release, and (being
a total function whose guards mirror the null checks of the source) it
cannot throw. -/
theorem c4_hangup_idempotent (s : CallState) (ok ok2 : Bool)
    (h1 : s.channel = true) (h2 : s.localStreamSet = true) (h3 : s.pcSet = true) :
    handleEndCall (handleEndCall s ok) ok2 = handleEndCall s ok ∧
    (handleEndCall s ok).sends = s.sends ++ [Msg.endCall] ∧
    (handleEndCall s ok).tracks = stopTracks s.tracks ∧
    (handleEndCall s ok).pc.closed = true ∧
    (handleEndCall s ok).channel = false := by
  rw [handleEndCall_closed_form s ok h1 h2 h3]
  refine ⟨?_, rfl, rfl, rfl, rfl⟩
  simp [handleEndCall, cleanup]

/-- C4 witness: hanging up the connected session twice. -/
theorem c4_hangup_idempotent_witness :
    handleEndCall (handleEndCall sConn true) true = handleEndCall sConn true ∧
    (handleEndCall sConn true).sends = sConn.sends ++ [Msg.endCall] ∧
    (handleEndCall sConn true).tracks = stopTracks sConn.tracks ∧
    (handleEndCall sConn true).pc.closed = true ∧
    (handleEndCall sConn true).channel = false :=
  c4_hangup_idempotent sConn true true rfl rfl rfl

/-! Claim C5. -/

/-- C5: on the call-initialization trace, the SUBSCRIBED confirmation that
resolves the subscribe promise occurs strictly before the fixed 1000 ms
settle delay, which occurs strictly before the Offer send; the initiator
sends exactly one Offer and the responder trace sends none. -/
theorem c5_subscribe_before_offer :
    (initCallTrace true).indexOf Action.subscribedConfirmed <
      (initCallTrace true).indexOf (Action.delayMs 1000) ∧
    (initCallTrace true).indexOf (Action.delayMs 1000) <
      (initCallTrace true).indexOf Action.sendOffer ∧
    (initCallTrace true).count Action.subscribedConfirmed = 1 ∧
    (initCallTrace true).count Action.sendOffer = 1 ∧
    (initCallTrace false).count Action.sendOffer = 0 := by
  decide

/-! Claim C6. -/

/-- C6: the terminal phase is absorbing.  Once a session has been torn down
(callStatus "ended" with the connection closed — what cleanup always
establishes), no further processed event — Offer, Answer, Candidate, Hangup,
local action or connectivity change — changes the phase again.  The code has
a single terminal phase, "ended"; the spec-level Failed is reached through
the same teardown path. -/
theorem c6_terminal_absorbing (s : CallState) (e : Event)
    (h1 : s.callStatus = .ended) (h2 : s.pc.closed = true) :
    (step s e).callStatus = .ended := by
  cases e with
  | recv p ok =>
    obtain ⟨pf, pt, pm⟩ := p
    cases pm <;> simp only [step] <;> repeat' split
    all_goals
      first
      | exact h1
      | exact handleEndCall_callStatus _ _
      | (rw [sendMsg_callStatus]; exact h1)
  | localCandidate c ok =>
    simp only [step]
    split
    all_goals
      first
      | exact h1
      | (rw [sendMsg_callStatus]; exact h1)
  | iceState st ok =>
    simp only [step]
    repeat' split
    all_goals
      first
      | exact h1
      | exact handleEndCall_callStatus _ _
      | exact absurd h2 (by assumption)
  | remoteTrack =>
    simp only [step]
    split
    · exact h1
    · exact absurd h2 (by assumption)
  | userHangup ok => exact handleEndCall_callStatus _ _
  | userToggleMute =>
    simp only [step]
    rw [toggleMute_callStatus]
    exact h1
  | offerPhase ok =>
    simp only [step]
    repeat' split
    all_goals
      first
      | exact h1
      | (rw [sendMsg_callStatus]; exact h1)

/-- C6 witness: the session obtained by tearing down the connected call is
terminal, and a subsequent remote-track event leaves it ended. -/
theorem c6_terminal_absorbing_witness :
    sEnded.callStatus = .ended ∧ sEnded.pc.closed = true ∧
    (step sEnded Event.remoteTrack).callStatus = .ended :=
  ⟨by decide, by decide,
   c6_terminal_absorbing sEnded Event.remoteTrack (by decide) (by decide)⟩

/-! Claim C7. -/

/-- C7 counterexample: when connectivity reports "failed" on the connected
session, a Hangup (end-call) message IS sent to the peer — handleEndCall
runs with the channel still attached — contradicting the claim that no
Hangup is sent. -/
theorem c7_counterexample :
    sConn.callStatus = .connected ∧ sConn.sends = [] ∧
    (step sConn (Event.iceState .failed true)).sends = [Msg.endCall] := by
  exact ⟨rfl, rfl, rfl⟩

/-- C7 amended: when the connection reports "failed" or "disconnected" while
the session is Connected, the session reaches the terminal phase (the code
has no separate Failed value of callStatus) with local capture released —
and an end-call (Hangup) message is sent to the peer, since handleEndCall
sends unconditionally while the channel is attached. -/
theorem c7_connectivity_failure_teardown (s : CallState) (st : IceConnState) (ok : Bool)
    (h0 : st = .failed ∨ st = .disconnected) (h1 : s.callStatus = .connected)
    (hcl : s.pc.closed = false) (hch : s.channel = true)
    (h2 : s.localStreamSet = true) (h3 : s.pcSet = true) :
    (step s (Event.iceState st ok)).callStatus = .ended ∧
    (step s (Event.iceState st ok)).tracks = stopTracks s.tracks ∧
    (step s (Event.iceState st ok)).sends = s.sends ++ [Msg.endCall] ∧
    (step s (Event.iceState st ok)).channel = false := by
  have hstep : step s (Event.iceState st ok) = handleEndCall s ok := by
    rcases h0 with h0 | h0 <;> subst h0 <;> simp [step, hcl]
  rw [hstep, handleEndCall_closed_form s ok hch h2 h3]
  exact ⟨rfl, rfl, rfl, rfl⟩

/-- C7 amended witness: connectivity failure on the concrete connected
session. -/
theorem c7_connectivity_failure_teardown_witness :
    sConn.callStatus = .connected ∧
    (step sConn (Event.iceState .failed true)).callStatus = .ended ∧
    (step sConn (Event.iceState .failed true)).tracks = stopTracks sConn.tracks ∧
    (step sConn (Event.iceState .failed true)).sends = sConn.sends ++ [Msg.endCall] ∧
    (step sConn (Event.iceState .failed true)).channel = false :=
  ⟨rfl,
   (c7_connectivity_failure_teardown sConn .failed true (Or.inl rfl) rfl rfl rfl rfl rfl).1,
   (c7_connectivity_failure_teardown sConn .failed true (Or.inl rfl) rfl rfl rfl rfl rfl).2.1,
   (c7_connectivity_failure_teardown sConn .failed true (Or.inl rfl) rfl rfl rfl rfl rfl).2.2.1,
   (c7_connectivity_failure_teardown sConn .failed true (Or.inl rfl) rfl rfl rfl rfl rfl).2.2.2⟩

/-! Claim C8. -/

/-- C8 counterexample: the initial Offer send of the initiator fails at the
transport, the error is logged — and nothing else happens: exactly one send
attempt (no retry) and the session stays in "connecting" (no transition to
any failed or terminal phase). -/
theorem c8_counterexample :
    (step sInit (Event.offerPhase false)).sends = [Msg.offer createOffer] ∧
    (step sInit (Event.offerPhase false)).errorsLogged = 1 ∧
    (step sInit (Event.offerPhase false)).callStatus = .connecting := by
  exact ⟨rfl, rfl, rfl⟩

/-- C8 amended: every signaling send failure, including the initial Offer
send, is caught inside sendSignalingMessage and merely logged: the session
state outside the send log is unchanged, there is no retry (the offer block
makes at most one send attempt), and no transition to a failed phase
occurs. -/
theorem c8_send_failure_nonfatal (s : CallState) (m : Msg) (ok : Bool) :
    (sendSignalingMessage s m ok).callStatus = s.callStatus ∧
    (sendSignalingMessage s m ok).isMuted = s.isMuted ∧
    (sendSignalingMessage s m ok).pc = s.pc ∧
    (sendSignalingMessage s m ok).tracks = s.tracks ∧
    (sendSignalingMessage s m ok).channel = s.channel ∧
    (step s (Event.offerPhase ok)).callStatus = s.callStatus ∧
    (step s (Event.offerPhase ok)).sends.length ≤ s.sends.length + 1 := by
  have hsend : ∀ t : CallState, ∀ m2 : Msg,
      (sendSignalingMessage t m2 ok).sends.length ≤ t.sends.length + 1 := by
    intro t m2
    rcases sendMsg_sends t m2 ok with h | h <;> rw [h] <;> simp
  refine ⟨sendMsg_callStatus s m ok, ?_, ?_, ?_, ?_, ?_, ?_⟩
  · cases hc : s.channel <;> simp [sendSignalingMessage, hc]
  · cases hc : s.channel <;> simp [sendSignalingMessage, hc]
  · cases hc : s.channel <;> simp [sendSignalingMessage, hc]
  · cases hc : s.channel <;> simp [sendSignalingMessage, hc]
  · simp only [step]
    repeat' split
    all_goals
      first
      | rfl
      | exact sendMsg_callStatus _ _ _
  · simp only [step]
    repeat' split
    all_goals
      first
      | exact Nat.le_succ _
      | exact hsend _ _

/-! Claim C9. -/

/-- C9: toggling mute on a session with a live capture stream flips the
enabled flag of every outbound audio track and the local muted flag, and
changes nothing else — no send, no status change, no connection change. -/
theorem c9_mute_purely_local (s : CallState) (h : s.localStreamSet = true) :
    toggleMute s =
      { s with tracks := s.tracks.map (fun t => { t with enabled := !t.enabled }),
               isMuted := !s.isMuted } := by
  simp [toggleMute, h]

/-- C9 witness: toggling mute on the connected session. -/
theorem c9_mute_purely_local_witness :
    sConn.localStreamSet = true ∧
    toggleMute sConn =
      { sConn with
        tracks := sConn.tracks.map (fun t => { t with enabled := !t.enabled }),
        isMuted := !sConn.isMuted } :=
  ⟨rfl, c9_mute_purely_local sConn rfl⟩

/-! Claim C10. -/

/-- C10: a remote end-call received while the channel is still attached runs
handleEndCall, which sends an end-call message back to the peer (the send
happens while the channel is attached, before the release) and only then
releases every resource: so a Hangup send also occurs on remotely initiated
teardown. -/
theorem c10_remote_hangup_echo (s : CallState) (f : String) (ok : Bool)
    (hch : s.channel = true) (h2 : s.localStreamSet = true) (h3 : s.pcSet = true) :
    (step s (Event.recv ⟨f, s.currentUserId, Msg.endCall⟩ ok)).sends =
      s.sends ++ [Msg.endCall] ∧
    (step s (Event.recv ⟨f, s.currentUserId, Msg.endCall⟩ ok)).channel = false ∧
    (step s (Event.recv ⟨f, s.currentUserId, Msg.endCall⟩ ok)).tracks = stopTracks s.tracks ∧
    (step s (Event.recv ⟨f, s.currentUserId, Msg.endCall⟩ ok)).pc.closed = true ∧
    (step s (Event.recv ⟨f, s.currentUserId, Msg.endCall⟩ ok)).callStatus = .ended := by
  have hstep : step s (Event.recv ⟨f, s.currentUserId, Msg.endCall⟩ ok) =
      handleEndCall s ok := by
    simp [step, hch]
  rw [hstep, handleEndCall_closed_form s ok hch h2 h3]
  exact ⟨rfl, rfl, rfl, rfl, rfl⟩

/-- C10 witness: a remote end-call on the concrete connected session. -/
theorem c10_remote_hangup_echo_witness :
    sConn.channel = true ∧
    (step sConn (Event.recv ⟨"u2", sConn.currentUserId, Msg.endCall⟩ true)).sends =
      sConn.sends ++ [Msg.endCall] ∧
    (step sConn (Event.recv ⟨"u2", sConn.currentUserId, Msg.endCall⟩ true)).channel = false :=
  ⟨rfl,
   (c10_remote_hangup_echo sConn "u2" true rfl rfl rfl).1,
   (c10_remote_hangup_echo sConn "u2" true rfl rfl rfl).2.1⟩

end AudioCall
